import Mathlib

/-!
Shallow embedding of the Moonfire NVR streamer control loop
(`src/streamer.rs`): the per-camera connection/rotation/retry state
machine (`Streamer::run` and `Streamer::run_once`).

Modelling choices:
* Machine integers (`i64` seconds, pts) become `Int`; Rust's `%` on `i64`
  is truncated remainder, embedded as `Int.tmod`.
* The external collaborators (clock, stream, writer directory, h264
  transform) are oracles: the stream is a list of arrivals (each either a
  packet paired with the wall-clock second read for it, or a read error),
  and the fallible writer/transform calls are oracle functions returning
  `Except`.
* The shared atomic shutdown flag is a function `Nat → Bool` giving the
  value observed at the n-th load; the load counter is threaded through
  the loops exactly where `shutdown.load` occurs in the source.
* Effects on the writer directory are recorded as an event trace so that
  trace properties (what was closed/created/written, and in what order)
  can be stated.
-/

namespace Streamer

/-- A demuxed packet as `run_once` sees it: optional presentation
timestamp (`pkt.pts()`), key-frame flag (`pkt.is_key()`), optional
payload (`pkt.data()`). -/
structure Packet where
  pts : Option Int
  isKey : Bool
  data : Option (List Nat)
deriving Repr, DecidableEq

/-- Rotation schedule carried by the `Streamer` struct:
`rotate_interval_sec` and `rotate_offset_sec`. -/
structure RotSched where
  rotateIntervalSec : Int
  rotateOffsetSec : Int
deriving Repr, DecidableEq

/-- One arrival from `stream.get_next()`: `none` is a read error
(including end of stream), `some (pkt, now)` is a packet together with
the wall-clock second `self.clock.get_time().sec` read while handling
it. -/
abbrev Arrival := Option (Packet × Int)

/-- Mutable locals of the packet loop in `run_once` (lines 115-119 of
`streamer.rs`): `seen_key_frame`, `rotate`, `writer` (writers are
identified by creation order), `next_start`, plus the id the next
created writer will get. -/
structure LoopState where
  seenKeyFrame : Bool
  rotate : Option Int
  writer : Option Nat
  nextStart : Option Int
  nextWriterId : Nat
deriving Repr, DecidableEq

/-- Initial locals of `run_once`'s packet loop. -/
def initState : LoopState :=
  { seenKeyFrame := false, rotate := none, writer := none,
    nextStart := none, nextWriterId := 0 }

/-- Oracle for the external collaborators used inside the packet loop.
`toTime` models `recording::Time::new` (recording.rs is an external
collaborator; the conversion is opaque to the streamer). `closeResult w b`
is the outcome of `w.close(b)`; `createResult w hint local` the outcome of
`dir.create_writer(..)` returning writer id `w`; `writeResult w d pts key`
the outcome of `w.write(d, pts, key)`; `needTransform` is
`extra_data.need_transform` and `transform` models
`h264::transform_sample_data`. -/
structure Oracle where
  toTime : Int → Int
  closeResult : Nat → Option Int → Except Unit Int
  createResult : Nat → Int → Int → Except Unit Unit
  writeResult : Nat → List Nat → Int → Bool → Except Unit Unit
  needTransform : Bool
  transform : List Nat → Except Unit (List Nat)

/-- Observable writer-directory effects of the packet loop. -/
inductive Ev where
  | close (w : Nat) (boundary : Option Int) (ret : Int)
  | closeFail (w : Nat) (boundary : Option Int)
  | create (w : Nat) (hint : Int) (localStart : Int)
  | write (w : Nat) (pts : Int) (key : Bool)
deriving Repr, DecidableEq

/-- Is this event a (successful or failed) writer close? -/
def Ev.isWriterClose : Ev → Bool
  | Ev.close _ _ _ => true
  | Ev.closeFail _ _ => true
  | _ => false

/-- Is this event a writer close with no boundary timestamp
(`close(None)`)? -/
def Ev.isCloseNone : Ev → Bool
  | Ev.close _ none _ => true
  | Ev.closeFail _ none => true
  | _ => false

/-- Is this event a writer creation? -/
def Ev.isCreate : Ev → Bool
  | Ev.create _ _ _ => true
  | _ => false

/-- Is this event a sample write? -/
def Ev.isWrite : Ev → Bool
  | Ev.write _ _ _ => true
  | _ => false

/-- Outcome of processing one arrival in the packet loop: continue with a
new state, return an error from `run_once` (the `?` operator), or hit the
`expect("rotate set implies writer is set")` panic. Each carries the
events emitted while processing the arrival. -/
inductive StepRes where
  | ok (s : LoopState) (evs : List Ev)
  | err (evs : List Ev)
  | bug (evs : List Ev)
deriving Repr, DecidableEq

/-- Events of a step outcome. -/
def StepRes.events : StepRes → List Ev
  | StepRes.ok _ evs => evs
  | StepRes.err evs => evs
  | StepRes.bug evs => evs

/-- Did the step return an error from `run_once`? -/
def StepRes.isErr : StepRes → Bool
  | StepRes.err _ => true
  | _ => false

/-- Did the step hit the `expect` panic? -/
def StepRes.isBug : StepRes → Bool
  | StepRes.bug _ => true
  | _ => false

/-- Rotation-boundary computation at writer creation, lines 140-144 of
`streamer.rs`:
`let r = frame_realtime.sec - (frame_realtime.sec % rotate_interval_sec)
 + rotate_offset_sec;
 rotate = Some(if r <= frame_realtime.sec { r + rotate_interval_sec }
 else { r });` -/
def computeRotate (sched : RotSched) (frameRealtimeSec : Int) : Int :=
  let r := frameRealtimeSec - frameRealtimeSec.tmod sched.rotateIntervalSec +
    sched.rotateOffsetSec
  if r ≤ frameRealtimeSec then r + sched.rotateIntervalSec else r

/-- Lines 152-163 of `streamer.rs`: require `pkt.data()`, transform when
`extra_data.need_transform`, then `w.write(transformed_data, pts,
pkt.is_key())` and put the writer back (`writer = Some(w)`). -/
def writePhase (o : Oracle) (s : LoopState) (w : Nat) (pkt : Packet)
    (pts : Int) (evs : List Ev) : StepRes :=
  match pkt.data with
  | none => StepRes.err evs
  | some d =>
    match (if o.needTransform then o.transform d else Except.ok d) with
    | Except.error _ => StepRes.err evs
    | Except.ok d2 =>
      match o.writeResult w d2 pts pkt.isKey with
      | Except.error _ => StepRes.err evs
      | Except.ok _ =>
        StepRes.ok { s with writer := some w } (evs ++ [Ev.write w pts pkt.isKey])

/-- Lines 137-151 of `streamer.rs`: take the open writer if there is one;
otherwise compute the next rotation boundary, compute
`local_realtime = recording::Time::new(frame_realtime)`, and call
`dir.create_writer(&channel, next_start.unwrap_or(local_realtime),
local_realtime, camera_id, video_sample_entry_id)`. -/
def ensureWriter (sched : RotSched) (o : Oracle) (s : LoopState)
    (pkt : Packet) (pts now : Int) (evs : List Ev) : StepRes :=
  match s.writer with
  | some w => writePhase o s w pkt pts evs
  | none =>
    let rot := computeRotate sched now
    let localStart := o.toTime now
    let hint := s.nextStart.getD localStart
    let w := s.nextWriterId
    match o.createResult w hint localStart with
    | Except.error _ => StepRes.err evs
    | Except.ok _ =>
      writePhase o
        { s with rotate := some rot, nextWriterId := w + 1 } w pkt pts
        (evs ++ [Ev.create w hint localStart])

/-- Lines 130-136 of `streamer.rs`: the rotation check. With a pending
boundary `r`, when `frame_realtime.sec > r` and the packet is a key
frame, take the writer (the `expect` is the `bug` outcome when it is
absent) and `close(Some(pts))`, recording the returned continuity time in
`next_start`. Falls through to `ensureWriter`. -/
def rotationCheck (sched : RotSched) (o : Oracle) (s : LoopState)
    (pkt : Packet) (pts now : Int) : StepRes :=
  match s.rotate with
  | some r =>
    if now > r ∧ pkt.isKey = true then
      match s.writer with
      | none => StepRes.bug []
      | some w =>
        match o.closeResult w (some pts) with
        | Except.error _ => StepRes.err [Ev.closeFail w (some pts)]
        | Except.ok t =>
          ensureWriter sched o { s with writer := none, nextStart := some t }
            pkt pts now [Ev.close w (some pts) t]
    else ensureWriter sched o s pkt pts now []
  | none => ensureWriter sched o s pkt pts now []

/-- Lines 121-163 of `streamer.rs`: process one arrival. A read error
propagates (`stream.get_next()?`); a packet without pts is the error
"packet with no pts"; a non-key packet before the first key frame is
discarded by `continue`; otherwise `seen_key_frame` is set and control
flows through the rotation check, writer creation, and the write. -/
def runOnceStep (sched : RotSched) (o : Oracle) (s : LoopState)
    (a : Arrival) : StepRes :=
  match a with
  | none => StepRes.err []
  | some (pkt, now) =>
    match pkt.pts with
    | none => StepRes.err []
    | some pts =>
      if s.seenKeyFrame = false ∧ pkt.isKey = false then StepRes.ok s []
      else rotationCheck sched o { s with seenKeyFrame := true } pkt pts now

/-- Outcome of one whole `run_once` call: `Ok(())`, `Err(..)`, or the
`expect` panic, with the writer-directory event trace. -/
inductive CycleRes where
  | ok (evs : List Ev)
  | err (evs : List Ev)
  | bug (evs : List Ev)
deriving Repr, DecidableEq

/-- Events of a cycle outcome. -/
def CycleRes.events : CycleRes → List Ev
  | CycleRes.ok evs => evs
  | CycleRes.err evs => evs
  | CycleRes.bug evs => evs

/-- Did the cycle return `Err`? -/
def CycleRes.isErr : CycleRes → Bool
  | CycleRes.err _ => true
  | _ => false

/-- Did the cycle hit the `expect` panic? -/
def CycleRes.isBug : CycleRes → Bool
  | CycleRes.bug _ => true
  | _ => false

/-- Prepend earlier events to a cycle outcome. -/
def CycleRes.prepend (evs : List Ev) : CycleRes → CycleRes
  | CycleRes.ok e => CycleRes.ok (evs ++ e)
  | CycleRes.err e => CycleRes.err (evs ++ e)
  | CycleRes.bug e => CycleRes.bug (evs ++ e)

/-- Lines 165-167 of `streamer.rs`: after the packet loop exits (shutdown
observed), `if let Some(w) = writer { w.close(None)?; }`. -/
def finishCycle (o : Oracle) (s : LoopState) : CycleRes :=
  match s.writer with
  | none => CycleRes.ok []
  | some w =>
    match o.closeResult w none with
    | Except.error _ => CycleRes.err [Ev.closeFail w none]
    | Except.ok t => CycleRes.ok [Ev.close w none t]

/-- The packet loop of `run_once` (lines 120-167): check the shutdown
flag (load number `n`), pull the next arrival (an exhausted arrival list
is a stream read error, as `get_next` then fails), process it, and
recurse. Returns the cycle outcome and the next unused shutdown-load
index. -/
def packetLoop (sched : RotSched) (o : Oracle) (shut : Nat → Bool) :
    Nat → LoopState → List Arrival → CycleRes × Nat
  | n, s, [] =>
    if shut n then (finishCycle o s, n + 1) else (CycleRes.err [], n + 1)
  | n, s, a :: rest =>
    if shut n then (finishCycle o s, n + 1)
    else
      match runOnceStep sched o s a with
      | StepRes.ok s2 evs =>
        let p := packetLoop sched o shut (n + 1) s2 rest
        (CycleRes.prepend evs p.1, p.2)
      | StepRes.err evs => (CycleRes.err evs, n + 1)
      | StepRes.bug evs => (CycleRes.bug evs, n + 1)

/-- Inputs determining one `run_once` call: whether `opener.open`,
`get_extra_data`, and `insert_video_sample_entry` succeed (lines
107-113), and the stream arrivals for the packet loop. -/
structure CycleInput where
  openOk : Bool
  extraOk : Bool
  insertOk : Bool
  arrivals : List Arrival
deriving Repr

/-- One `run_once` call (lines 104-169): the three fallible setup steps
propagate errors before the packet loop starts; the loop then runs from
`initState`. -/
def runOnceModel (sched : RotSched) (o : Oracle) (shut : Nat → Bool)
    (c : CycleInput) (n : Nat) : CycleRes × Nat :=
  if c.openOk then
    if c.extraOk then
      if c.insertOk then packetLoop sched o shut n initState c.arrivals
      else (CycleRes.err [], n)
    else (CycleRes.err [], n)
  else (CycleRes.err [], n)

/-- Observable outcome of `run` (lines 93-102): how many times
`opener.open` was called (once per `run_once` invocation), the backoff
sleeps issued (in seconds, in order), how many cycles returned `Err`,
the index of the shutdown load that observed `true` and ended the loop
(`none` when the supplied cycle inputs ran out first, or on a panic), and
whether the `expect` panic was hit. -/
structure RunResult where
  openCount : Nat
  sleeps : List Int
  errCount : Nat
  exitCheck : Option Nat
  hitBug : Bool
deriving Repr, DecidableEq

/-- The retry loop of `run` (lines 93-102): `while !shutdown.load { if
let Err(e) = run_once() { sleep(Duration::seconds(1)); } }`. Each outer
iteration consumes one shutdown load and one `CycleInput`; an erroring
cycle adds a 1-second sleep and continues. A panic aborts. -/
def runFrom (sched : RotSched) (o : Oracle) (shut : Nat → Bool) :
    List CycleInput → Nat → RunResult
  | [], n =>
    if shut n then
      { openCount := 0, sleeps := [], errCount := 0, exitCheck := some n,
        hitBug := false }
    else
      { openCount := 0, sleeps := [], errCount := 0, exitCheck := none,
        hitBug := false }
  | c :: rest, n =>
    if shut n then
      { openCount := 0, sleeps := [], errCount := 0, exitCheck := some n,
        hitBug := false }
    else
      let p := runOnceModel sched o shut c (n + 1)
      match p.1 with
      | CycleRes.ok _ =>
        let R := runFrom sched o shut rest p.2
        { R with openCount := R.openCount + 1 }
      | CycleRes.err _ =>
        let R := runFrom sched o shut rest p.2
        { openCount := R.openCount + 1, sleeps := 1 :: R.sleeps,
          errCount := R.errCount + 1, exitCheck := R.exitCheck,
          hitBug := R.hitBug }
      | CycleRes.bug _ =>
        { openCount := 1, sleeps := [], errCount := 0, exitCheck := none,
          hitBug := true }

/-! Derived predicates used to state the claims. -/

/-- The loop-top invariant behind the source's
`expect("rotate set implies writer is set")`: whenever a rotation
boundary is pending, a writer is open. -/
def RotateWriterInv (s : LoopState) : Prop :=
  s.rotate.isSome = true → s.writer.isSome = true

/-- Continuity timestamp visible after a trace: the return value of the
last successful close, if any, starting from `ns`. Mirrors the loop
variable `next_start`. -/
def nsAfter : Option Int → List Ev → Option Int
  | ns, [] => ns
  | ns, e :: rest =>
    match e with
    | Ev.close _ _ t => nsAfter (some t) rest
    | _ => nsAfter ns rest

/-- Whether a created writer is open (created and not yet closed) after a
trace, starting from `p`. Mirrors `writer.is_some()`. -/
def pendingAfter : Bool → List Ev → Bool
  | p, [] => p
  | p, e :: rest =>
    match e with
    | Ev.create _ _ _ => pendingAfter true rest
    | Ev.close _ _ _ => pendingAfter false rest
    | Ev.closeFail _ _ => pendingAfter false rest
    | _ => pendingAfter p rest

/-- Time contiguity of a trace: every `create` passes as its start hint
the continuity timestamp returned by the last preceding successful
close, or its own locally computed start time when no close precedes. -/
def contiguousFrom : Option Int → List Ev → Prop
  | _, [] => True
  | ns, e :: rest =>
    match e with
    | Ev.close _ _ t => contiguousFrom (some t) rest
    | Ev.create _ hint lo => hint = ns.getD lo ∧ contiguousFrom ns rest
    | _ => contiguousFrom ns rest

/-- Separation of creates in a trace: a second writer is only created
after the previous one was closed (so at most one writer is open, and
every non-first `create` has a close before it). -/
def createsSeparated : Bool → List Ev → Prop
  | _, [] => True
  | p, e :: rest =>
    match e with
    | Ev.create _ _ _ => p = false ∧ createsSeparated true rest
    | Ev.close _ _ _ => createsSeparated false rest
    | Ev.closeFail _ _ => createsSeparated false rest
    | _ => createsSeparated p rest

/-! Concrete inputs used for counterexamples and witnesses. -/

/-- Collaborator oracle in which every external call succeeds: close
returns continuity time 777, no transform is needed. -/
def oracleAllOk : Oracle :=
  { toTime := fun s => s * 90000,
    closeResult := fun _ _ => Except.ok 777,
    createResult := fun _ _ _ => Except.ok (),
    writeResult := fun _ _ _ _ => Except.ok (),
    needTransform := false,
    transform := fun d => Except.ok d }

/-- A 60-second rotation schedule with no offset. -/
def sched60 : RotSched := { rotateIntervalSec := 60, rotateOffsetSec := 0 }

/-- Recording state with a pending boundary at second 50 and writer 0
open. -/
def recState50 : LoopState :=
  { seenKeyFrame := true, rotate := some 50, writer := some 0,
    nextStart := none, nextWriterId := 1 }

/-- Recording state with a pending boundary at second 80 and writer 3
open. -/
def recState80 : LoopState :=
  { seenKeyFrame := true, rotate := some 80, writer := some 3,
    nextStart := some 42, nextWriterId := 4 }

/-- A key-frame packet with pts 7 and an empty payload. -/
def pktKey7 : Packet := { pts := some 7, isKey := true, data := some [] }

/-- A key-frame packet with pts 9 and a one-byte payload. -/
def pktKey9 : Packet := { pts := some 9, isKey := true, data := some [2] }

/-- A non-key packet with no presentation timestamp. -/
def pktNoPts : Packet := { pts := none, isKey := false, data := some [] }

/-- A key-frame packet with pts 5 and a one-byte payload. -/
def pktKey5 : Packet := { pts := some 5, isKey := true, data := some [1] }

/-- A connection cycle whose stream yields one good key frame and then
fails: the writer opened for the key frame is still open at the error. -/
def cycleKeyThenErr : CycleInput :=
  { openOk := true, extraOk := true, insertOk := true,
    arrivals := [some (pktKey5, 100), none] }

/-- A cycle input whose `opener.open` call fails immediately. -/
def cycleOpenFail : CycleInput :=
  { openOk := false, extraOk := true, insertOk := true, arrivals := [] }

/-- A shutdown flag that is never set. -/
def shutNever : Nat → Bool := fun _ => false

/-- A shutdown flag that is set from the start. -/
def shutAlways : Nat → Bool := fun _ => true

/-! Helper lemmas about the phases of one packet step. -/

/-- `writePhase` never emits close events beyond those already in
`evs0`: its own event, when any, is a write. -/
theorem writePhase_any_close (o : Oracle) (s : LoopState) (w : Nat)
    (pkt : Packet) (pts : Int) (evs0 : List Ev) :
    (writePhase o s w pkt pts evs0).events.any Ev.isWriterClose
      = evs0.any Ev.isWriterClose := by
  unfold writePhase
  repeat' split
  all_goals simp [StepRes.events, Ev.isWriterClose]

/-- `ensureWriter` never emits close events beyond those already in
`evs0`: its own events are creates and writes. -/
theorem ensureWriter_any_close (sched : RotSched) (o : Oracle)
    (s : LoopState) (pkt : Packet) (pts now : Int) (evs0 : List Ev) :
    (ensureWriter sched o s pkt pts now evs0).events.any Ev.isWriterClose
      = evs0.any Ev.isWriterClose := by
  simp only [ensureWriter]
  split
  · rw [writePhase_any_close]
  · split
    · simp [StepRes.events]
    · rw [writePhase_any_close]
      simp [Ev.isWriterClose]

/-- A packet without payload makes `writePhase` return the error
"packet has no data" with the events accumulated so far. -/
theorem writePhase_data_none (o : Oracle) (s : LoopState) (w : Nat)
    (pkt : Packet) (pts : Int) (evs0 : List Ev) (h : pkt.data = none) :
    writePhase o s w pkt pts evs0 = StepRes.err evs0 := by
  unfold writePhase
  rw [h]

/-- With a payload-less packet, `ensureWriter` ends in an error and emits
no write event. -/
theorem ensureWriter_data_none (sched : RotSched) (o : Oracle)
    (s : LoopState) (pkt : Packet) (pts now : Int) (evs0 : List Ev)
    (h : pkt.data = none) :
    (ensureWriter sched o s pkt pts now evs0).isErr = true ∧
    (ensureWriter sched o s pkt pts now evs0).events.any Ev.isWrite
      = evs0.any Ev.isWrite := by
  simp only [ensureWriter]
  split
  · rw [writePhase_data_none _ _ _ _ _ _ h]
    simp [StepRes.events, StepRes.isErr]
  · split
    · simp [StepRes.events, StepRes.isErr]
    · rw [writePhase_data_none _ _ _ _ _ _ h]
      simp [StepRes.events, StepRes.isErr, Ev.isWrite]

/-- An `ok` outcome of `writePhase` puts the writer back and appends one
write event. -/
theorem writePhase_ok_fields (o : Oracle) (s : LoopState) (w : Nat)
    (pkt : Packet) (pts : Int) (evs0 : List Ev) (s2 : LoopState)
    (evs : List Ev) (h : writePhase o s w pkt pts evs0 = StepRes.ok s2 evs) :
    s2 = { s with writer := some w } ∧
    evs = evs0 ++ [Ev.write w pts pkt.isKey] := by
  unfold writePhase at h
  repeat' split at h
  all_goals simp_all

/-- An `ok` outcome of `ensureWriter` keeps `seen_key_frame` and leaves a
writer open. -/
theorem ensureWriter_ok_fields (sched : RotSched) (o : Oracle)
    (s : LoopState) (pkt : Packet) (pts now : Int) (evs0 : List Ev)
    (s2 : LoopState) (evs : List Ev)
    (h : ensureWriter sched o s pkt pts now evs0 = StepRes.ok s2 evs) :
    s2.seenKeyFrame = s.seenKeyFrame ∧ s2.writer.isSome = true := by
  simp only [ensureWriter] at h
  split at h
  · have hf := (writePhase_ok_fields _ _ _ _ _ _ _ _ h).1
    subst hf
    simp
  · split at h
    · simp at h
    · have hf := (writePhase_ok_fields _ _ _ _ _ _ _ _ h).1
      subst hf
      simp

/-- An `ok` outcome of `rotationCheck` keeps `seen_key_frame` and leaves
a writer open. -/
theorem rotationCheck_ok_fields (sched : RotSched) (o : Oracle)
    (s : LoopState) (pkt : Packet) (pts now : Int) (s2 : LoopState)
    (evs : List Ev)
    (h : rotationCheck sched o s pkt pts now = StepRes.ok s2 evs) :
    s2.seenKeyFrame = s.seenKeyFrame ∧ s2.writer.isSome = true := by
  unfold rotationCheck at h
  split at h
  · split at h
    · split at h
      · simp at h
      · split at h
        · simp at h
        · have := ensureWriter_ok_fields _ _ _ _ _ _ _ _ _ h
          simpa using this
    · exact ensureWriter_ok_fields _ _ _ _ _ _ _ _ _ h
  · exact ensureWriter_ok_fields _ _ _ _ _ _ _ _ _ h

/-- An `ok` outcome of a whole packet step either left the state
untouched (a discarded packet) or leaves a writer open. -/
theorem runOnceStep_ok_fields (sched : RotSched) (o : Oracle)
    (s : LoopState) (a : Arrival) (s2 : LoopState) (evs : List Ev)
    (h : runOnceStep sched o s a = StepRes.ok s2 evs) :
    (s2 = s ∧ evs = []) ∨ s2.writer.isSome = true := by
  rcases a with _ | ⟨pkt, now⟩
  · simp [runOnceStep] at h
  · simp only [runOnceStep] at h
    rcases hpp : pkt.pts with _ | pts
    · simp [hpp] at h
    · simp only [hpp] at h
      split at h
      · cases h
        exact Or.inl ⟨rfl, rfl⟩
      · exact Or.inr (rotationCheck_ok_fields _ _ _ _ _ _ _ _ h).2

/-- Claim C2: for every rotation schedule with positive interval and
`0 ≤ offset < interval`, and every wall-clock second `t` at which a new
segment opens, the boundary computed at writer creation satisfies
`boundary > t` and `boundary ≡ offset (mod interval)`. -/
theorem claim2_boundary_future_and_aligned (sched : RotSched) (t : Int)
    (hpos : 0 < sched.rotateIntervalSec)
    (hlo : 0 ≤ sched.rotateOffsetSec)
    (hhi : sched.rotateOffsetSec < sched.rotateIntervalSec) :
    t < computeRotate sched t ∧
    computeRotate sched t % sched.rotateIntervalSec = sched.rotateOffsetSec := by
  have hm : t.tmod sched.rotateIntervalSec < sched.rotateIntervalSec :=
    Int.tmod_lt_of_pos t hpos
  have hd := Int.tmod_add_tdiv t sched.rotateIntervalSec
  have key : ∀ k : Int,
      (sched.rotateIntervalSec * k + sched.rotateOffsetSec) %
        sched.rotateIntervalSec = sched.rotateOffsetSec := by
    intro k
    rw [Int.add_comm, Int.add_mul_emod_self_left, Int.emod_eq_of_lt hlo hhi]
  simp only [computeRotate]
  constructor
  · split <;> omega
  · split
    · have he : t - t.tmod sched.rotateIntervalSec + sched.rotateOffsetSec +
          sched.rotateIntervalSec
          = sched.rotateIntervalSec * (t.tdiv sched.rotateIntervalSec + 1) +
            sched.rotateOffsetSec := by
        have : sched.rotateIntervalSec * (t.tdiv sched.rotateIntervalSec + 1)
            = sched.rotateIntervalSec * t.tdiv sched.rotateIntervalSec +
              sched.rotateIntervalSec := by ring
        omega
      rw [he, key]
    · have he : t - t.tmod sched.rotateIntervalSec + sched.rotateOffsetSec
          = sched.rotateIntervalSec * t.tdiv sched.rotateIntervalSec +
            sched.rotateOffsetSec := by omega
      rw [he, key]

/-- Witness for claim C2 at interval 60, offset 0, t = 100. -/
theorem claim2_witness :
    (100 : Int) < computeRotate sched60 100 ∧
    computeRotate sched60 100 % sched60.rotateIntervalSec
      = sched60.rotateOffsetSec :=
  claim2_boundary_future_and_aligned sched60 100 (by decide) (by decide)
    (by decide)

/-- Counterexample to claim C1 as stated: in the Recording state with a
pending boundary at second 50, a key-frame packet arriving exactly at
second 50 (so `frame_realtime ≥ boundary` holds) does not close the
writer, because the code requires `frame_realtime.sec > r` strictly. -/
theorem claim1_counterexample :
    (50 : Int) ≥ 50 ∧ recState50.rotate = some 50 ∧
    recState50.writer = some 0 ∧ pktKey7.isKey = true ∧
    (runOnceStep sched60 oracleAllOk recState50
      (some (pktKey7, 50))).events.any Ev.isWriterClose = false := by
  decide

/-- Claim C1 (amended): in the Recording state, if a rotation boundary
is pending, the wall-clock second read at packet arrival is strictly
greater than the boundary, and the packet is a key frame, then the
writer is closed with the packet's timestamp as the close boundary and
the returned continuity timestamp is recorded for the next segment. -/
theorem claim1_rotation_close (sched : RotSched) (o : Oracle)
    (s : LoopState) (pkt : Packet) (r now pts t : Int) (w : Nat)
    (hseen : s.seenKeyFrame = true) (hrot : s.rotate = some r)
    (hw : s.writer = some w) (hgt : now > r) (hkey : pkt.isKey = true)
    (hpts : pkt.pts = some pts)
    (hclose : o.closeResult w (some pts) = Except.ok t) :
    (∃ rest, (runOnceStep sched o s (some (pkt, now))).events
        = Ev.close w (some pts) t :: rest) ∧
    (∀ s2 evs, runOnceStep sched o s (some (pkt, now)) = StepRes.ok s2 evs →
      s2.nextStart = some t) := by
  unfold runOnceStep rotationCheck ensureWriter writePhase
  simp only [hpts, hseen, hkey, hrot, hw, hclose, hgt]
  simp only [Bool.true_eq_false, false_and, if_false, and_self, if_true]
  constructor
  · split
    · exact ⟨_, rfl⟩
    · split
      · exact ⟨_, rfl⟩
      · split
        · exact ⟨_, rfl⟩
        · split
          · exact ⟨_, rfl⟩
          · exact ⟨_, rfl⟩
  · intro s2 evs h
    repeat' split at h
    all_goals simp_all
    obtain ⟨h1, h2⟩ := h
    subst h1
    rfl

/-- Witness for claim C1 (amended): boundary 50, key frame at second 51
with pts 7, writer 0 open; the close event leads the step's events and
continuity 777 is recorded. -/
theorem claim1_witness :
    (∃ rest, (runOnceStep sched60 oracleAllOk recState50
        (some (pktKey7, 51))).events = Ev.close 0 (some 7) 777 :: rest) ∧
    (∀ s2 evs, runOnceStep sched60 oracleAllOk recState50
        (some (pktKey7, 51)) = StepRes.ok s2 evs →
      s2.nextStart = some 777) :=
  claim1_rotation_close sched60 oracleAllOk recState50 pktKey7 50 51 7 777 0
    rfl rfl rfl (by decide) rfl rfl rfl

/-- Counterexample to claim C6 as stated: with boundary 80 pending and a
key frame arriving exactly at second 80 ("at the boundary"), no close
happens, so the close does not occur on the first key frame at or after
the boundary. -/
theorem claim6_counterexample :
    recState80.rotate = some 80 ∧ pktKey9.isKey = true ∧ (80 : Int) ≥ 80 ∧
    (runOnceStep sched60 oracleAllOk recState80
      (some (pktKey9, 80))).events.any Ev.isWriterClose = false := by
  decide

/-- Claim C6 (amended): a rotation close never happens on a packet whose
key-frame flag is false; no close happens while the wall-clock second is
at or before the pending boundary; and on a key frame strictly past the
pending boundary with a writer open, a close is attempted. -/
theorem claim6_close_only_on_key_after_boundary :
    (∀ (sched : RotSched) (o : Oracle) (s : LoopState) (pkt : Packet)
       (now : Int), pkt.isKey = false →
       (runOnceStep sched o s (some (pkt, now))).events.any Ev.isWriterClose
         = false) ∧
    (∀ (sched : RotSched) (o : Oracle) (s : LoopState) (pkt : Packet)
       (now r : Int), s.rotate = some r → now ≤ r →
       (runOnceStep sched o s (some (pkt, now))).events.any Ev.isWriterClose
         = false) ∧
    (∀ (sched : RotSched) (o : Oracle) (s : LoopState) (pkt : Packet)
       (now r pts : Int) (w : Nat),
       s.seenKeyFrame = true → s.rotate = some r → s.writer = some w →
       now > r → pkt.isKey = true → pkt.pts = some pts →
       (runOnceStep sched o s (some (pkt, now))).events.any Ev.isWriterClose
         = true) := by
  refine ⟨?_, ?_, ?_⟩
  · intro sched o s pkt now hkey
    simp only [runOnceStep]
    rcases hpp : pkt.pts with _ | pts
    · rfl
    · simp only [rotationCheck, hkey, Bool.false_eq_true, and_false, if_false,
        eq_self_iff_true, and_true]
      split
      · rfl
      · split
        · simp [ensureWriter_any_close]
        · simp [ensureWriter_any_close]
  · intro sched o s pkt now r hrot hle
    simp only [runOnceStep]
    rcases hpp : pkt.pts with _ | pts
    · rfl
    · simp only [rotationCheck, hrot]
      split
      · rfl
      · rw [if_neg (by
          intro hcond
          exact absurd hcond.1 (not_lt.mpr hle))]
        simp [ensureWriter_any_close]
  · intro sched o s pkt now r pts w hseen hrot hw hgt hkey hpts
    simp only [runOnceStep, hpts, rotationCheck, hseen, hrot, hw, hkey, hgt,
      Bool.true_eq_false, false_and, if_false, eq_self_iff_true, and_self,
      if_true, true_and, and_true]
    split
    · simp [StepRes.events, Ev.isWriterClose]
    · rw [ensureWriter_any_close]
      simp [Ev.isWriterClose]

/-- Witness for claim C6 (amended): a non-key packet in the Recording
state with the boundary long past produces no close event. -/
theorem claim6_witness :
    (runOnceStep sched60 oracleAllOk recState50
      (some ({ pts := some 11, isKey := false, data := some [] }, 500))).events.any
      Ev.isWriterClose = false :=
  claim6_close_only_on_key_after_boundary.1 sched60 oracleAllOk recState50
    { pts := some 11, isKey := false, data := some [] } 500 rfl

/-- Counterexample to claim C5 as stated: before the first key frame, a
packet with no presentation timestamp is not discarded silently; the
cycle returns the error "packet with no pts". -/
theorem claim5_counterexample :
    initState.seenKeyFrame = false ∧ pktNoPts.isKey = false ∧
    (runOnceStep sched60 oracleAllOk initState
      (some (pktNoPts, 0))).isErr = true := by
  decide

/-- Claim C5 (amended): in the AwaitingKeyFrame state, every packet that
carries a presentation timestamp and is not a key frame is discarded
with no state change, no writer-directory effect, and no error; a packet
with no timestamp aborts the cycle with an error; and a step that
continues after a key-frame packet is in the Recording state
(`seen_key_frame` set). -/
theorem claim5_discard_until_key_frame :
    (∀ (sched : RotSched) (o : Oracle) (s : LoopState) (pkt : Packet)
       (now p : Int), s.seenKeyFrame = false → pkt.isKey = false →
       pkt.pts = some p →
       runOnceStep sched o s (some (pkt, now)) = StepRes.ok s []) ∧
    (∀ (sched : RotSched) (o : Oracle) (s : LoopState) (pkt : Packet)
       (now : Int), s.seenKeyFrame = false → pkt.pts = none →
       runOnceStep sched o s (some (pkt, now)) = StepRes.err []) ∧
    (∀ (sched : RotSched) (o : Oracle) (s : LoopState) (pkt : Packet)
       (now : Int) (s2 : LoopState) (evs : List Ev),
       runOnceStep sched o s (some (pkt, now)) = StepRes.ok s2 evs →
       pkt.isKey = true → s2.seenKeyFrame = true) := by
  refine ⟨?_, ?_, ?_⟩
  · intro sched o s pkt now p hseen hkey hpts
    simp only [runOnceStep, hpts]
    rw [if_pos ⟨hseen, hkey⟩]
  · intro sched o s pkt now hseen hpts
    simp only [runOnceStep, hpts]
  · intro sched o s pkt now s2 evs h hkey
    simp only [runOnceStep] at h
    rcases hpp : pkt.pts with _ | pts
    · simp [hpp] at h
    · simp only [hpp] at h
      split at h
      · rename_i hcond
        rw [hkey] at hcond
        simp at hcond
      · have := (rotationCheck_ok_fields _ _ _ _ _ _ _ _ h).1
        simpa using this

/-- Witness for claim C5 (amended): a non-key packet with a timestamp is
discarded without any effect while awaiting the first key frame. -/
theorem claim5_witness :
    runOnceStep sched60 oracleAllOk initState
      (some ({ pts := some 3, isKey := false, data := some [] }, 5))
      = StepRes.ok initState [] :=
  claim5_discard_until_key_frame.1 sched60 oracleAllOk initState
    { pts := some 3, isKey := false, data := some [] } 5 3 rfl rfl rfl

/-- Claim C8: in the Recording state, a packet without a presentation
timestamp makes the cycle return the error "packet with no pts" with no
effect, and a packet without payload makes the cycle return the error
"packet has no data"; in both cases the packet is never written. The
second part assumes the loop-top invariant that a pending rotation
boundary implies an open writer. -/
theorem claim8_malformed_packet_errors :
    (∀ (sched : RotSched) (o : Oracle) (s : LoopState) (pkt : Packet)
       (now : Int), s.seenKeyFrame = true → pkt.pts = none →
       runOnceStep sched o s (some (pkt, now)) = StepRes.err []) ∧
    (∀ (sched : RotSched) (o : Oracle) (s : LoopState) (pkt : Packet)
       (now pts : Int), s.seenKeyFrame = true → RotateWriterInv s →
       pkt.pts = some pts → pkt.data = none →
       (runOnceStep sched o s (some (pkt, now))).isErr = true ∧
       (runOnceStep sched o s (some (pkt, now))).events.any Ev.isWrite
         = false) := by
  constructor
  · intro sched o s pkt now hseen hpts
    simp only [runOnceStep, hpts]
  · intro sched o s pkt now pts hseen hinv hpts hdata
    simp only [runOnceStep, hpts, hseen, Bool.true_eq_false, false_and,
      if_false, rotationCheck]
    rcases hrot : s.rotate with _ | r
    · simp only [hrot]
      have := ensureWriter_data_none sched o { s with seenKeyFrame := true }
        pkt pts now [] hdata
      simpa [hrot] using this
    · simp only [hrot]
      split
      · rcases hw : s.writer with _ | w
        · exact absurd (hinv (by simp [hrot])) (by simp [hw])
        · simp only [hw]
          rcases hc : o.closeResult w (some pts) with e | t
          · simp [StepRes.isErr, StepRes.events, Ev.isWrite]
          · have := ensureWriter_data_none sched o
              { s with seenKeyFrame := true, writer := none, nextStart := some t }
              pkt pts now [Ev.close w (some pts) t] hdata
            simpa [hrot, hw, Ev.isWrite] using this
      · have := ensureWriter_data_none sched o { s with seenKeyFrame := true }
          pkt pts now [] hdata
        simpa [hrot] using this

/-- Witness for claim C8: in the Recording state a packet with no pts
produces the error return. -/
theorem claim8_witness :
    runOnceStep sched60 oracleAllOk recState50
      (some ({ pts := none, isKey := true, data := some [] }, 60))
      = StepRes.err [] :=
  claim8_malformed_packet_errors.1 sched60 oracleAllOk recState50
    { pts := none, isKey := true, data := some [] } 60 rfl rfl

/-! Helper lemmas for the absence of the `expect` panic. -/

/-- `writePhase` never panics. -/
theorem writePhase_not_bug (o : Oracle) (s : LoopState) (w : Nat)
    (pkt : Packet) (pts : Int) (evs0 : List Ev) :
    (writePhase o s w pkt pts evs0).isBug = false := by
  unfold writePhase
  repeat' split
  all_goals rfl

/-- `ensureWriter` never panics. -/
theorem ensureWriter_not_bug (sched : RotSched) (o : Oracle) (s : LoopState)
    (pkt : Packet) (pts now : Int) (evs0 : List Ev) :
    (ensureWriter sched o s pkt pts now evs0).isBug = false := by
  simp only [ensureWriter]
  split
  · exact writePhase_not_bug o s _ pkt pts evs0
  · split
    · rfl
    · exact writePhase_not_bug o _ _ pkt pts _

/-- Under the loop-top invariant, `rotationCheck` never panics. -/
theorem rotationCheck_not_bug (sched : RotSched) (o : Oracle)
    (s : LoopState) (pkt : Packet) (pts now : Int)
    (hinv : RotateWriterInv s) :
    (rotationCheck sched o s pkt pts now).isBug = false := by
  simp only [rotationCheck]
  rcases hrot : s.rotate with _ | r
  · simp only [hrot]
    exact ensureWriter_not_bug sched o s pkt pts now []
  · simp only [hrot]
    split
    · rcases hw : s.writer with _ | w
      · exact absurd (hinv (by simp [hrot])) (by simp [hw])
      · simp only [hw]
        rcases hc : o.closeResult w (some pts) with e | t
        · simp only [hc]
          rfl
        · simp only [hc]
          exact ensureWriter_not_bug sched o _ pkt pts now _
    · exact ensureWriter_not_bug sched o s pkt pts now []

/-- Under the loop-top invariant, one packet step never panics. -/
theorem runOnceStep_not_bug (sched : RotSched) (o : Oracle) (s : LoopState)
    (a : Arrival) (hinv : RotateWriterInv s) :
    (runOnceStep sched o s a).isBug = false := by
  rcases a with _ | ⟨pkt, now⟩
  · rfl
  · rcases hpp : pkt.pts with _ | pts
    · simp only [runOnceStep, hpp]
      rfl
    · simp only [runOnceStep, hpp]
      split
      · rfl
      · exact rotationCheck_not_bug sched o _ pkt pts now
          (by simpa [RotateWriterInv] using hinv)

/-- An `ok` packet step preserves the loop-top invariant. -/
theorem runOnceStep_preserves_inv (sched : RotSched) (o : Oracle)
    (s : LoopState) (a : Arrival) (s2 : LoopState) (evs : List Ev)
    (hinv : RotateWriterInv s)
    (h : runOnceStep sched o s a = StepRes.ok s2 evs) : RotateWriterInv s2 := by
  rcases runOnceStep_ok_fields sched o s a s2 evs h with ⟨h1, _⟩ | h2
  · subst h1
    exact hinv
  · intro _
    exact h2

/-- Prepending events does not change whether a cycle outcome panicked. -/
theorem CycleRes.isBug_prepend (evs : List Ev) (r : CycleRes) :
    (CycleRes.prepend evs r).isBug = r.isBug := by
  cases r <;> rfl

/-- The shutdown close never panics. -/
theorem finishCycle_not_bug (o : Oracle) (s : LoopState) :
    (finishCycle o s).isBug = false := by
  unfold finishCycle
  repeat' split
  all_goals rfl

/-- From any state satisfying the loop-top invariant, the packet loop
never panics. -/
theorem packetLoop_not_bug (sched : RotSched) (o : Oracle)
    (shut : Nat → Bool) :
    ∀ (arrivals : List Arrival) (n : Nat) (s : LoopState),
      RotateWriterInv s →
      (packetLoop sched o shut n s arrivals).1.isBug = false := by
  intro arrivals
  induction arrivals with
  | nil =>
    intro n s hinv
    simp only [packetLoop]
    split
    · exact finishCycle_not_bug o s
    · rfl
  | cons a rest ih =>
    intro n s hinv
    simp only [packetLoop]
    split
    · exact finishCycle_not_bug o s
    · rcases hstep : runOnceStep sched o s a with ⟨s2, evs⟩ | evs | evs
      · rw [CycleRes.isBug_prepend]
        exact ih (n + 1) s2 (runOnceStep_preserves_inv sched o s a s2 evs hinv hstep)
      · rfl
      · have := runOnceStep_not_bug sched o s a hinv
        rw [hstep] at this
        simp [StepRes.isBug] at this

/-- Claim C10: the packet-loop invariant "a pending rotation boundary
implies an open writer" is preserved by every continuing step, and as a
consequence the `expect("rotate set implies writer is set")` assertion
never fails in any connection cycle. -/
theorem claim10_rotate_implies_writer_no_panic :
    (∀ (sched : RotSched) (o : Oracle) (s : LoopState) (a : Arrival)
       (s2 : LoopState) (evs : List Ev), RotateWriterInv s →
       runOnceStep sched o s a = StepRes.ok s2 evs → RotateWriterInv s2) ∧
    (∀ (sched : RotSched) (o : Oracle) (shut : Nat → Bool) (c : CycleInput)
       (n : Nat), (runOnceModel sched o shut c n).1.isBug = false) := by
  constructor
  · exact fun sched o s a s2 evs hinv h =>
      runOnceStep_preserves_inv sched o s a s2 evs hinv h
  · intro sched o shut c n
    simp only [runOnceModel]
    have hinv : RotateWriterInv initState := by
      intro h
      simp [initState] at h
    split
    · split
      · split
        · exact packetLoop_not_bug sched o shut c.arrivals n initState hinv
        · rfl
      · rfl
    · rfl

/-- Witness for claim C10: the concrete error cycle does not panic. -/
theorem claim10_witness :
    (runOnceModel sched60 oracleAllOk shutNever cycleKeyThenErr 0).1.isBug
      = false :=
  claim10_rotate_implies_writer_no_panic.2 sched60 oracleAllOk shutNever
    cycleKeyThenErr 0

/-! Helper lemmas for the close-with-no-boundary analysis (claim C3). -/

/-- `writePhase` adds no close-with-no-boundary event. -/
theorem writePhase_any_closeNone (o : Oracle) (s : LoopState) (w : Nat)
    (pkt : Packet) (pts : Int) (evs0 : List Ev) :
    (writePhase o s w pkt pts evs0).events.any Ev.isCloseNone
      = evs0.any Ev.isCloseNone := by
  unfold writePhase
  repeat' split
  all_goals simp [StepRes.events, Ev.isCloseNone]

/-- `ensureWriter` adds no close-with-no-boundary event. -/
theorem ensureWriter_any_closeNone (sched : RotSched) (o : Oracle)
    (s : LoopState) (pkt : Packet) (pts now : Int) (evs0 : List Ev) :
    (ensureWriter sched o s pkt pts now evs0).events.any Ev.isCloseNone
      = evs0.any Ev.isCloseNone := by
  simp only [ensureWriter]
  split
  · rw [writePhase_any_closeNone]
  · split
    · simp [StepRes.events]
    · rw [writePhase_any_closeNone]
      simp [Ev.isCloseNone]

/-- A `rotationCheck` error return carries no close-with-no-boundary
event: the only closes it issues use the packet timestamp as boundary. -/
theorem rotationCheck_err_closeNone (sched : RotSched) (o : Oracle)
    (s : LoopState) (pkt : Packet) (pts now : Int) (evs : List Ev)
    (h : rotationCheck sched o s pkt pts now = StepRes.err evs) :
    evs.any Ev.isCloseNone = false := by
  have hall : (rotationCheck sched o s pkt pts now).events.any Ev.isCloseNone
      = false := by
    simp only [rotationCheck]
    rcases hrot : s.rotate with _ | r
    · simp only [hrot]
      simp [ensureWriter_any_closeNone]
    · simp only [hrot]
      split
      · rcases hw : s.writer with _ | w
        · simp [StepRes.events]
        · simp only [hw]
          rcases hc : o.closeResult w (some pts) with e | t
          · simp only [hc]
            simp [StepRes.events, Ev.isCloseNone]
          · simp only [hc]
            simp [ensureWriter_any_closeNone, Ev.isCloseNone]
      · simp [ensureWriter_any_closeNone]
  rw [h] at hall
  simpa [StepRes.events] using hall

/-- Counterexample to claim C3 as stated: a cycle that records one key
frame and then hits a stream read error returns the error with the
writer still open — the trace has a create but no close of any kind
before the cycle returns. -/
theorem claim3_counterexample :
    (runOnceModel sched60 oracleAllOk shutNever cycleKeyThenErr 0).1.isErr
      = true ∧
    (runOnceModel sched60 oracleAllOk shutNever
      cycleKeyThenErr 0).1.events.any Ev.isCreate = true ∧
    (runOnceModel sched60 oracleAllOk shutNever
      cycleKeyThenErr 0).1.events.any Ev.isWriterClose = false := by
  decide

/-- Claim C3 (amended): a connection cycle that aborts with an error
does not close the open writer at all (the handle is dropped); a close
with no boundary timestamp is issued only on the shutdown exit path,
where an open writer is always closed with boundary `None`. -/
theorem claim3_no_close_on_error :
    (∀ (o : Oracle) (s : LoopState) (w : Nat), s.writer = some w →
       (∃ t, finishCycle o s = CycleRes.ok [Ev.close w none t]) ∨
       finishCycle o s = CycleRes.err [Ev.closeFail w none]) ∧
    (∀ (sched : RotSched) (o : Oracle) (s : LoopState) (a : Arrival)
       (evs : List Ev), runOnceStep sched o s a = StepRes.err evs →
       evs.any Ev.isCloseNone = false) := by
  constructor
  · intro o s w hw
    simp only [finishCycle, hw]
    rcases hc : o.closeResult w none with e | t
    · simp only [hc]
      simp
    · simp only [hc]
      exact Or.inl ⟨t, rfl⟩
  · intro sched o s a evs h
    rcases a with _ | ⟨pkt, now⟩
    · simp only [runOnceStep] at h
      cases h
      rfl
    · rcases hpp : pkt.pts with _ | pts
      · simp only [runOnceStep, hpp] at h
        cases h
        rfl
      · simp only [runOnceStep, hpp] at h
        split at h
        · cases h
        · exact rotationCheck_err_closeNone sched o _ pkt pts now evs h

/-- Witness for claim C3 (amended): the shutdown path closes writer 0 of
the Recording state with boundary `None`. -/
theorem claim3_witness :
    (∃ t, finishCycle oracleAllOk recState50
        = CycleRes.ok [Ev.close 0 none t]) ∨
    finishCycle oracleAllOk recState50
      = CycleRes.err [Ev.closeFail 0 none] :=
  claim3_no_close_on_error.1 oracleAllOk recState50 0 rfl

/-- Claim C9: if the shutdown flag is already set when `run` is entered,
`run` returns without calling the stream opener: no connection attempt
is made and the exiting shutdown observation is the very first load. -/
theorem claim9_shutdown_before_open (sched : RotSched) (o : Oracle)
    (shut : Nat → Bool) (inputs : List CycleInput) (h : shut 0 = true) :
    (runFrom sched o shut inputs 0).openCount = 0 ∧
    (runFrom sched o shut inputs 0).exitCheck = some 0 := by
  cases inputs <;> simp [runFrom, h]

/-- Witness for claim C9: with the flag initially set, no open happens. -/
theorem claim9_witness :
    (runFrom sched60 oracleAllOk shutAlways [cycleKeyThenErr] 0).openCount
      = 0 ∧
    (runFrom sched60 oracleAllOk shutAlways [cycleKeyThenErr] 0).exitCheck
      = some 0 :=
  claim9_shutdown_before_open sched60 oracleAllOk shutAlways
    [cycleKeyThenErr] rfl

/-- Claim C7: `run` never propagates an error (its outcome type has no
error case); every erroring cycle is followed by exactly one fixed
1-second backoff sleep; the loop exits only on a shutdown load that
observed `true`; and there is no upper bound on retries — for every `k`,
a run fed `k` failing connection attempts with shutdown never signaled
performs all `k` retries and is still running. -/
theorem claim7_retry_forever :
    (∀ (sched : RotSched) (o : Oracle) (shut : Nat → Bool)
       (inputs : List CycleInput) (n : Nat),
       (runFrom sched o shut inputs n).sleeps
         = List.replicate (runFrom sched o shut inputs n).errCount 1) ∧
    (∀ (sched : RotSched) (o : Oracle) (shut : Nat → Bool)
       (inputs : List CycleInput) (n m : Nat),
       (runFrom sched o shut inputs n).exitCheck = some m →
       shut m = true) ∧
    (∀ (sched : RotSched) (o : Oracle) (n k : Nat),
       (runFrom sched o shutNever (List.replicate k cycleOpenFail) n).errCount
         = k ∧
       (runFrom sched o shutNever
         (List.replicate k cycleOpenFail) n).exitCheck = none) := by
  refine ⟨?_, ?_, ?_⟩
  · intro sched o shut inputs
    induction inputs with
    | nil =>
      intro n
      simp only [runFrom]
      split <;> rfl
    | cons c rest ih =>
      intro n
      simp only [runFrom]
      split
      · rfl
      · rcases hres : (runOnceModel sched o shut c (n + 1)).1 with evs | evs | evs
        · simp only [hres]
          exact ih _
        · simp only [hres]
          rw [ih _]
          rfl
        · rfl
  · intro sched o shut inputs
    induction inputs with
    | nil =>
      intro n m
      by_cases hs : shut n = true
      · simp only [runFrom, hs, if_true]
        intro h
        cases h
        exact hs
      · simp only [runFrom, hs, if_false]
        intro h
        cases h
    | cons c rest ih =>
      intro n m
      by_cases hs : shut n = true
      · simp only [runFrom, hs, if_true]
        intro h
        cases h
        exact hs
      · simp only [runFrom, hs, if_false]
        rcases hres : (runOnceModel sched o shut c (n + 1)).1 with evs | evs | evs
        · simp only [hres]
          exact ih _ m
        · simp only [hres]
          exact ih _ m
        · intro h
          cases h
  · intro sched o n k
    induction k generalizing n with
    | zero => simp [runFrom, shutNever]
    | succ k ih =>
      simp only [List.replicate_succ, runFrom, shutNever, Bool.false_eq_true,
        if_false]
      have hcyc : (runOnceModel sched o shutNever cycleOpenFail (n + 1))
          = (CycleRes.err [], n + 1) := by
        simp [runOnceModel, cycleOpenFail]
      rw [hcyc]
      exact ⟨by rw [(ih (n + 1)).1], (ih (n + 1)).2⟩

/-- Witness for claim C7: three failing connection attempts with
shutdown never signaled give three retries and a still-running loop. -/
theorem claim7_witness :
    (runFrom sched60 oracleAllOk shutNever
      (List.replicate 3 cycleOpenFail) 0).errCount = 3 ∧
    (runFrom sched60 oracleAllOk shutNever
      (List.replicate 3 cycleOpenFail) 0).exitCheck = none :=
  claim7_retry_forever.2.2 sched60 oracleAllOk 0 3

/-! Helper lemmas for the segment-contiguity analysis (claim C4). -/

/-- `nsAfter` distributes over concatenation. -/
theorem nsAfter_append (l1 l2 : List Ev) :
    ∀ ns, nsAfter ns (l1 ++ l2) = nsAfter (nsAfter ns l1) l2 := by
  induction l1 with
  | nil => intro ns; rfl
  | cons e rest ih =>
    intro ns
    cases e <;> simp [nsAfter, ih]

/-- `pendingAfter` distributes over concatenation. -/
theorem pendingAfter_append (l1 l2 : List Ev) :
    ∀ p, pendingAfter p (l1 ++ l2) = pendingAfter (pendingAfter p l1) l2 := by
  induction l1 with
  | nil => intro p; rfl
  | cons e rest ih =>
    intro p
    cases e <;> simp [pendingAfter, ih]

/-- `contiguousFrom` splits across concatenation. -/
theorem contiguousFrom_append (l1 l2 : List Ev) :
    ∀ ns, contiguousFrom ns (l1 ++ l2) ↔
      (contiguousFrom ns l1 ∧ contiguousFrom (nsAfter ns l1) l2) := by
  induction l1 with
  | nil => intro ns; simp [contiguousFrom, nsAfter]
  | cons e rest ih =>
    intro ns
    cases e <;> simp [contiguousFrom, nsAfter, ih] <;> tauto

/-- `createsSeparated` splits across concatenation. -/
theorem createsSeparated_append (l1 l2 : List Ev) :
    ∀ p, createsSeparated p (l1 ++ l2) ↔
      (createsSeparated p l1 ∧ createsSeparated (pendingAfter p l1) l2) := by
  induction l1 with
  | nil => intro p; simp [createsSeparated, pendingAfter]
  | cons e rest ih =>
    intro p
    cases e <;> simp [createsSeparated, pendingAfter, ih] <;> tauto

/-- `writePhase` either fails with the accumulated events or succeeds
appending exactly one write event. -/
theorem writePhase_total (o : Oracle) (s : LoopState) (w : Nat)
    (pkt : Packet) (pts : Int) (evs0 : List Ev) :
    writePhase o s w pkt pts evs0 = StepRes.err evs0 ∨
    writePhase o s w pkt pts evs0
      = StepRes.ok { s with writer := some w }
          (evs0 ++ [Ev.write w pts pkt.isKey]) := by
  unfold writePhase
  repeat' split
  all_goals simp

/-- Trace invariants through `ensureWriter`: contiguity and creation
separation are preserved, and on success the new state's `next_start`
and open-writer flag match the trace summaries. -/
theorem ensureWriter_trace (sched : RotSched) (o : Oracle) (s : LoopState)
    (pkt : Packet) (pts now : Int) (evs0 : List Ev) (ns : Option Int)
    (p : Bool)
    (hc : contiguousFrom ns evs0) (hsep : createsSeparated p evs0)
    (hns : nsAfter ns evs0 = s.nextStart)
    (hpend : pendingAfter p evs0 = s.writer.isSome) :
    contiguousFrom ns (ensureWriter sched o s pkt pts now evs0).events ∧
    createsSeparated p (ensureWriter sched o s pkt pts now evs0).events ∧
    (∀ s2 evs, ensureWriter sched o s pkt pts now evs0 = StepRes.ok s2 evs →
       s2.nextStart = nsAfter ns evs ∧
       s2.writer.isSome = pendingAfter p evs) := by
  rcases hw : s.writer with _ | w
  · simp only [ensureWriter, hw]
    rcases hcr : o.createResult s.nextWriterId
        (s.nextStart.getD (o.toTime now)) (o.toTime now) with e | u
    · simp only [hcr]
      refine ⟨hc, hsep, ?_⟩
      intro s2 evs h
      simp at h
    · simp only [hcr]
      have hc1 : contiguousFrom ns (evs0 ++ [Ev.create s.nextWriterId
          (s.nextStart.getD (o.toTime now)) (o.toTime now)]) := by
        rw [contiguousFrom_append]
        refine ⟨hc, ?_⟩
        simp [contiguousFrom, hns]
      have hsep1 : createsSeparated p (evs0 ++ [Ev.create s.nextWriterId
          (s.nextStart.getD (o.toTime now)) (o.toTime now)]) := by
        rw [createsSeparated_append]
        refine ⟨hsep, ?_⟩
        simp [createsSeparated, hpend, hw]
      rcases writePhase_total o { s with rotate := some (computeRotate sched now), writer := none, nextWriterId := s.nextWriterId + 1 } s.nextWriterId pkt pts (evs0 ++ [Ev.create s.nextWriterId (s.nextStart.getD (o.toTime now)) (o.toTime now)]) with herr | hok
      · rw [herr]
        refine ⟨hc1, hsep1, ?_⟩
        intro s2 evs h
        simp at h
      · rw [hok]
        refine ⟨?_, ?_, ?_⟩
        · simp only [StepRes.events]
          rw [contiguousFrom_append]
          exact ⟨hc1, by simp [contiguousFrom]⟩
        · simp only [StepRes.events]
          rw [createsSeparated_append]
          exact ⟨hsep1, by simp [createsSeparated]⟩
        · intro s2 evs h
          cases h
          constructor
          · simp [nsAfter_append, nsAfter, hns]
          · simp [pendingAfter_append, pendingAfter]
  · simp only [ensureWriter, hw]
    rcases writePhase_total o s w pkt pts evs0 with herr | hok
    · rw [herr]
      refine ⟨hc, hsep, ?_⟩
      intro s2 evs h
      simp at h
    · rw [hok]
      refine ⟨?_, ?_, ?_⟩
      · simp only [StepRes.events]
        rw [contiguousFrom_append]
        exact ⟨hc, by simp [contiguousFrom]⟩
      · simp only [StepRes.events]
        rw [createsSeparated_append]
        exact ⟨hsep, by simp [createsSeparated]⟩
      · intro s2 evs h
        cases h
        constructor
        · simp [nsAfter_append, nsAfter, hns]
        · simp [pendingAfter_append, pendingAfter, hpend, hw]

/-- Trace invariants through `rotationCheck`. -/
theorem rotationCheck_trace (sched : RotSched) (o : Oracle) (s : LoopState)
    (pkt : Packet) (pts now : Int) :
    contiguousFrom s.nextStart (rotationCheck sched o s pkt pts now).events ∧
    createsSeparated s.writer.isSome
      (rotationCheck sched o s pkt pts now).events ∧
    (∀ s2 evs, rotationCheck sched o s pkt pts now = StepRes.ok s2 evs →
       s2.nextStart = nsAfter s.nextStart evs ∧
       s2.writer.isSome = pendingAfter s.writer.isSome evs) := by
  simp only [rotationCheck]
  rcases hrot : s.rotate with _ | r
  · simp only [hrot]
    exact ensureWriter_trace sched o s pkt pts now [] s.nextStart
      s.writer.isSome trivial trivial rfl rfl
  · simp only [hrot]
    split
    · rcases hw : s.writer with _ | w
      · simp only [hw]
        refine ⟨trivial, trivial, ?_⟩
        intro s2 evs h
        simp at h
      · simp only [hw]
        rcases hcl : o.closeResult w (some pts) with e | t
        · simp only [hcl]
          refine ⟨?_, ?_, ?_⟩
          · simp [StepRes.events, contiguousFrom]
          · simp [StepRes.events, createsSeparated]
          · intro s2 evs h
            simp at h
        · simp only [hcl]
          exact ensureWriter_trace sched o
            { s with writer := none, nextStart := some t } pkt pts now
            [Ev.close w (some pts) t] s.nextStart true
            (by simp [contiguousFrom]) (by simp [createsSeparated])
            (by simp [nsAfter]) (by simp [pendingAfter])
    · exact ensureWriter_trace sched o s pkt pts now [] s.nextStart
        s.writer.isSome trivial trivial rfl rfl

/-- Trace invariants through one packet step. -/
theorem runOnceStep_trace (sched : RotSched) (o : Oracle) (s : LoopState)
    (a : Arrival) :
    contiguousFrom s.nextStart (runOnceStep sched o s a).events ∧
    createsSeparated s.writer.isSome (runOnceStep sched o s a).events ∧
    (∀ s2 evs, runOnceStep sched o s a = StepRes.ok s2 evs →
       s2.nextStart = nsAfter s.nextStart evs ∧
       s2.writer.isSome = pendingAfter s.writer.isSome evs) := by
  rcases a with _ | ⟨pkt, now⟩
  · refine ⟨trivial, trivial, ?_⟩
    intro s2 evs h
    simp [runOnceStep] at h
  · rcases hpp : pkt.pts with _ | pts
    · simp only [runOnceStep, hpp]
      refine ⟨trivial, trivial, ?_⟩
      intro s2 evs h
      simp at h
    · simp only [runOnceStep, hpp]
      split
      · refine ⟨trivial, trivial, ?_⟩
        intro s2 evs h
        cases h
        exact ⟨rfl, rfl⟩
      · have := rotationCheck_trace sched o
          { s with seenKeyFrame := true } pkt pts now
        simpa using this

/-- Prepending events acts as concatenation on a cycle outcome's
events. -/
theorem CycleRes.events_prepend (evs : List Ev) (r : CycleRes) :
    (CycleRes.prepend evs r).events = evs ++ r.events := by
  cases r <;> rfl

/-- The shutdown close keeps the trace predicates. -/
theorem finishCycle_trace (o : Oracle) (s : LoopState) (ns : Option Int)
    (p : Bool) :
    contiguousFrom ns (finishCycle o s).events ∧
    createsSeparated p (finishCycle o s).events := by
  unfold finishCycle
  repeat' split
  all_goals simp [CycleRes.events, contiguousFrom, createsSeparated]

/-- Trace invariants over the whole packet loop. -/
theorem packetLoop_trace (sched : RotSched) (o : Oracle) (shut : Nat → Bool) :
    ∀ (arrivals : List Arrival) (n : Nat) (s : LoopState),
      contiguousFrom s.nextStart
        (packetLoop sched o shut n s arrivals).1.events ∧
      createsSeparated s.writer.isSome
        (packetLoop sched o shut n s arrivals).1.events := by
  intro arrivals
  induction arrivals with
  | nil =>
    intro n s
    simp only [packetLoop]
    split
    · exact finishCycle_trace o s s.nextStart s.writer.isSome
    · exact ⟨trivial, trivial⟩
  | cons a rest ih =>
    intro n s
    simp only [packetLoop]
    split
    · exact finishCycle_trace o s s.nextStart s.writer.isSome
    · have ht := runOnceStep_trace sched o s a
      rcases hstep : runOnceStep sched o s a with ⟨s2, evs⟩ | evs | evs
      · rw [hstep] at ht
        obtain ⟨h1, h2, h3⟩ := ht
        obtain ⟨hns2, hp2⟩ := h3 s2 evs rfl
        rw [CycleRes.events_prepend]
        constructor
        · rw [contiguousFrom_append]
          refine ⟨by simpa [StepRes.events] using h1, ?_⟩
          rw [← hns2]
          exact (ih (n + 1) s2).1
        · rw [createsSeparated_append]
          refine ⟨by simpa [StepRes.events] using h2, ?_⟩
          rw [← hp2]
          exact (ih (n + 1) s2).2
      · rw [hstep] at ht
        exact ⟨by simpa [StepRes.events, CycleRes.events] using ht.1,
          by simpa [StepRes.events, CycleRes.events] using ht.2.1⟩
      · rw [hstep] at ht
        exact ⟨by simpa [StepRes.events, CycleRes.events] using ht.1,
          by simpa [StepRes.events, CycleRes.events] using ht.2.1⟩

/-- Claim C4: within one connection cycle the trace is time-contiguous —
every `create_writer` call receives as its start hint the continuity
timestamp returned by the most recent writer close, and the locally
computed wall-clock start time is used only when no close precedes (the
first segment); moreover a second writer is only created after the
previous one was closed. -/
theorem claim4_segments_contiguous (sched : RotSched) (o : Oracle)
    (shut : Nat → Bool) (c : CycleInput) (n : Nat) :
    contiguousFrom none (runOnceModel sched o shut c n).1.events ∧
    createsSeparated false (runOnceModel sched o shut c n).1.events := by
  simp only [runOnceModel]
  split
  · split
    · split
      · have := packetLoop_trace sched o shut c.arrivals n initState
        simpa [initState] using this
      · exact ⟨trivial, trivial⟩
    · exact ⟨trivial, trivial⟩
  · exact ⟨trivial, trivial⟩

/-- Witness for claim C4 at the concrete error cycle. -/
theorem claim4_witness :
    contiguousFrom none
      (runOnceModel sched60 oracleAllOk shutNever cycleKeyThenErr 0).1.events ∧
    createsSeparated false
      (runOnceModel sched60 oracleAllOk shutNever cycleKeyThenErr 0).1.events :=
  claim4_segments_contiguous sched60 oracleAllOk shutNever cycleKeyThenErr 0

end Streamer




